import Mathlib

/-
Verification of the task-context resolver and scheduler of the
`tasks_ui` crate (`src/crates/tasks_ui/src/lib.rs`).

The embedding translates the four functions the claims are about:
`task_cwd` (working-directory resolution), `task_context` (variable
resolution), `schedule_task` (scheduling with history and spawn event),
and the rerun action handler registered in `init`.  External
collaborators (editor surface, buffers, worktrees, the task inventory
slot and the variable map of the `task` crate) are modelled from the
spec, as noted on each definition.
-/

set_option autoImplicit false

namespace TasksUi

/-- Modelled from the spec: `VariableName` is a closed set of well-known
identifiers plus caller-supplied extension names (the `task` crate is not
part of the sources). -/
inductive VariableName where
  | Row
  | Column
  | SelectedText
  | File
  | WorktreeRoot
  | Symbol
  | Custom (name : String)
deriving DecidableEq

/-- Modelled from the spec: `TaskVariables` is an insertion-ordered mapping
from variable name to string value with unique keys (the `task` crate is not
part of the sources). -/
abbrev TaskVariables := List (VariableName × String)

/-- Modelled from the spec: inserting a binding overwrites any existing
binding of the same key (last-write-wins), keeping keys unique. -/
def TaskVariables.insert : TaskVariables → VariableName → String → TaskVariables
  | [], k, v => [(k, v)]
  | p :: rest, k, v =>
    if p.1 = k then TaskVariables.insert rest k v
    else p :: TaskVariables.insert rest k v

/-- Lookup of a key in the variable mapping. -/
def TaskVariables.get : TaskVariables → VariableName → Option String
  | [], _ => none
  | p :: rest, k => if p.1 = k then some p.2 else TaskVariables.get rest k

/-- Value of the last binding of a key in a raw binding list (used to state
last-write-wins for provider-supplied bindings). -/
def TaskVariables.getLast : TaskVariables → VariableName → Option String
  | [], _ => none
  | p :: rest, k =>
    match TaskVariables.getLast rest k with
    | some v => some v
    | none => if p.1 = k then some p.2 else none

/-- Modelled from the spec: `extend` inserts every binding of `other`, in
order, into `vars` (later bindings overwrite earlier ones). -/
def TaskVariables.extend (vars other : TaskVariables) : TaskVariables :=
  List.foldl (fun acc p => TaskVariables.insert acc p.1 p.2) vars other

/-- Modelled from the spec: building a variable mapping from a list of
bindings inserts them in order into the empty mapping. -/
def TaskVariables.from_iter (l : List (VariableName × String)) : TaskVariables :=
  List.foldl (fun acc p => TaskVariables.insert acc p.1 p.2) [] l

/-- `TaskContext` as used by `task_context` and `schedule_task`: an optional
working directory plus the resolved variables. -/
structure TaskContext where
  cwd : Option String
  task_variables : TaskVariables
deriving DecidableEq

/-- Modelled from the spec: the execution descriptor a task produces
(command, arguments, working directory); opaque to this core. -/
structure SpawnInTerminal where
  command : String
  args : List String
  cwd : Option String
deriving DecidableEq

/-- Modelled from the spec: a task is opaque, identified by a stable name,
with the capability to prepare an execution descriptor from a context
(`prepare_exec` returns nothing when the task cannot be materialized). -/
structure Task where
  name : String
  prepare_exec : TaskContext → Option SpawnInTerminal

/-- Modelled from the spec: the inventory owns a single-slot scheduling
history (last scheduled task plus the context it was scheduled with). -/
structure Inventory where
  lastScheduled : Option (Task × TaskContext)

/-- Modelled from the spec: `recordScheduled` overwrites the single
last-scheduled slot, last-write-wins. -/
def Inventory.task_scheduled (_inv : Inventory) (task : Task) (ctx : TaskContext) :
    Inventory :=
  { lastScheduled := some (task, ctx) }

/-- Getter for the single-slot history, mirroring `last_scheduled_task`. -/
def Inventory.last_scheduled_task (inv : Inventory) : Option (Task × TaskContext) :=
  inv.lastScheduled

/-- Modelled from the spec: a top-level worktree entry, of which only
directory-ness is observed (`root_entry().is_dir()`). -/
structure Entry where
  is_dir : Bool
deriving DecidableEq

/-- Modelled from the spec: a project root candidate as observed by
`task_cwd` (visibility, locality, root entry, contained entry ids, path). -/
structure Worktree where
  id : Nat
  abs_path : String
  is_visible : Bool
  is_local : Bool
  root_entry : Option Entry
  entries : List Nat
deriving DecidableEq

/-- Modelled from the spec: `contains_entry` asks whether the worktree
contains the entry with the given id. -/
def Worktree.contains_entry (w : Worktree) (entry_id : Nat) : Bool :=
  w.entries.contains entry_id

/-- Modelled from the spec: the project exposes its worktrees, the active
entry id, and owns the task inventory. -/
structure Project where
  worktrees : List Worktree
  active_entry : Option Nat
  inventory : Inventory

/-- Modelled from the spec: `worktree_for_id` finds the worktree with the
given id. -/
def Project.worktree_for_id (p : Project) (wid : Nat) : Option Worktree :=
  p.worktrees.find? (fun w => w.id == wid)

/-- The filter of `task_cwd`: worktrees that are visible, local, and whose
top-level entry is a directory. -/
def availableWorktrees (project : Project) : List Worktree :=
  project.worktrees.filter (fun worktree =>
    worktree.is_visible && worktree.is_local &&
      (worktree.root_entry.map Entry.is_dir).getD false)

/-- Embedding of `task_cwd` (lib.rs lines 238 to 271): resolve a working
directory from the candidate worktrees, failing when several candidates
exist and none of them contains the active entry. -/
def task_cwd (project : Project) : Except String (Option String) :=
  let available := availableWorktrees project
  match available with
  | [] => Except.ok none
  | [worktree] => Except.ok (some worktree.abs_path)
  | _ =>
    let cwd_for_active_entry := project.active_entry.bind (fun entry_id =>
      List.findSome? (fun worktree =>
        if worktree.contains_entry entry_id then some worktree.abs_path else none)
        available)
    match cwd_for_active_entry with
    | some cwd => Except.ok (some cwd)
    | none => Except.error "Cannot determine task cwd for multiple worktrees"

/-- Modelled from the spec: a selection is a pair of start and end offsets
of the primary selection (start is the cursor anchor used for resolution). -/
structure Selection where
  start : Nat
  stop : Nat
deriving DecidableEq

/-- The `range()` of a selection, as the code uses it: start to end. -/
def Selection.range (s : Selection) : Nat × Nat := (s.start, s.stop)

/-- Modelled from the spec: the location handed to a language context
provider (buffer contents plus the selected range). -/
structure Location where
  bufferText : List Char
  range : Nat × Nat

/-- Modelled from the spec: a language context provider builds extra
variables from a location; the call is fallible. -/
structure ContextProvider where
  build_context : Location → Except String TaskVariables

/-- Modelled from the spec: a language optionally declares a context
provider. -/
structure Language where
  context_provider : Option ContextProvider

/-- Modelled from the spec: the file backing a buffer, with its worktree id
and, when the file is local, its absolute path (`as_local().abs_path()`). -/
structure SourceFile where
  worktree_id : Nat
  local_abs_path : Option String
deriving DecidableEq

/-- Modelled from the spec: a buffer holds text, an optional backing file
and an optional language. -/
structure Buffer where
  text : List Char
  file : Option SourceFile
  language : Option Language

/-- Modelled from the spec: the active editor surface, with its buffer, the
newest selection, and whether the selection start can be mapped to a buffer
offset (`point_to_buffer_offset` succeeding). -/
structure Editor where
  buffer : Buffer
  selection : Selection
  point_to_buffer_offset_ok : Bool

/-- The workspace as observed by this crate: the project and the active
item viewed as an editor, when there is one. -/
structure Workspace where
  project : Project
  active_editor : Option Editor

/-- Modelled from the spec: `offset_to_point` converts a byte offset into a
zero-based (row, column) pair by scanning the text up to the offset. -/
def offsetToPoint (text : List Char) (offset : Nat) : Nat × Nat :=
  List.foldl (fun p c => if c = '\n' then (p.1 + 1, 0) else (p.1, p.2 + 1))
    (0, 0) (text.take offset)

/-- Modelled from the spec: `chars_for_range` yields the literal substring
of the buffer covered by the range. -/
def chars_for_range (text : List Char) (range : Nat × Nat) : String :=
  String.mk ((text.drop range.1).take (range.2 - range.1))

/-- Embedding of lib.rs lines 169 to 173: the language context of the
active editor, obtained from the buffer language through its context
provider; a provider failure is swallowed into `none`. -/
def languageContext (editor : Editor) : Option TaskVariables :=
  (editor.buffer.language.bind Language.context_provider).bind
    (fun provider =>
      (provider.build_context
        { bufferText := editor.buffer.text, range := Selection.range editor.selection }).toOption)

/-- Embedding of lib.rs lines 158 to 163: the absolute path of the file
backing the buffer, when that file is local. -/
def currentFile (editor : Editor) : Option String :=
  editor.buffer.file.bind SourceFile.local_abs_path

/-- Embedding of lib.rs lines 164 to 181: the absolute path of the worktree
owning the buffer file, when there is one. -/
def worktreePath (workspace : Workspace) (editor : Editor) : Option String :=
  (editor.buffer.file.map SourceFile.worktree_id).bind (fun wid =>
    (workspace.project.worktree_for_id wid).map Worktree.abs_path)

/-- Embedding of lib.rs lines 147 to 195: the well-known variables (Row,
Column, SelectedText, then File and WorktreeRoot when available) inserted
before any language-provider variables. -/
def baseVariables (workspace : Workspace) (editor : Editor) : TaskVariables :=
  let rc := offsetToPoint editor.buffer.text (Selection.range editor.selection).1
  let row := rc.1 + 1
  let column := rc.2 + 1
  let selected_text := chars_for_range editor.buffer.text (Selection.range editor.selection)
  let task_variables := TaskVariables.from_iter
    [(VariableName.Row, toString row),
     (VariableName.Column, toString column),
     (VariableName.SelectedText, selected_text)]
  let task_variables :=
    match currentFile editor with
    | some path => TaskVariables.insert task_variables VariableName.File path
    | none => task_variables
  match worktreePath workspace editor with
  | some wp => TaskVariables.insert task_variables VariableName.WorktreeRoot wp
  | none => task_variables

/-- Embedding of `task_context` (lib.rs lines 117 to 216): resolve a
`TaskContext` from the active editor; with no active editor, or when the
selection start cannot be mapped to a buffer offset, degrade to the given
working directory with empty variables; provider variables extend the
well-known ones last. -/
def task_context (workspace : Workspace) (cwd : Option String) : TaskContext :=
  match workspace.active_editor with
  | none => { cwd := cwd, task_variables := [] }
  | some editor =>
    if editor.point_to_buffer_offset_ok then
      { cwd := cwd,
        task_variables :=
          match languageContext editor with
          | some language_context =>
            TaskVariables.extend (baseVariables workspace editor) language_context
          | none => baseVariables workspace editor }
    else { cwd := cwd, task_variables := [] }

/-- Observable steps of a scheduling attempt, in the order they happen. -/
inductive TraceEvent where
  | resolved (ctx : TaskContext)
  | prepared (taskName : String) (ctx : TaskContext)
  | recorded (taskName : String) (ctx : TaskContext)
  | spawned (descr : SpawnInTerminal)

/-- Whether a trace event is the emission of a spawn-request event. -/
def TraceEvent.isSpawn : TraceEvent → Bool
  | .spawned _ => true
  | _ => false

/-- Whether a trace event is a history record. -/
def TraceEvent.isRecord : TraceEvent → Bool
  | .recorded _ _ => true
  | _ => false

/-- Embedding of `schedule_task` (lib.rs lines 218 to 236): call
`prepare_exec`; on success record history (unless omitted) and then emit
the spawn-request event; on failure do nothing.  Returns the updated
inventory together with the ordered trace of observable steps. -/
def schedule_task (task : Task) (task_cx : TaskContext) (omit_history : Bool)
    (inventory : Inventory) : Inventory × List TraceEvent :=
  match task.prepare_exec task_cx with
  | none => (inventory, [TraceEvent.prepared task.name task_cx])
  | some spawn_in_terminal =>
    if omit_history then
      (inventory,
       [TraceEvent.prepared task.name task_cx,
        TraceEvent.spawned spawn_in_terminal])
    else
      (Inventory.task_scheduled inventory task task_cx,
       [TraceEvent.prepared task.name task_cx,
        TraceEvent.recorded task.name task_cx,
        TraceEvent.spawned spawn_in_terminal])

/-- The rerun action payload. -/
structure Rerun where
  reevaluate_context : Bool

/-- Embedding of the rerun handler registered in `init` (lib.rs lines 25 to
39): with no last-scheduled task, do nothing; otherwise schedule the stored
task, with a freshly resolved context when re-evaluation is requested
(working-directory errors are logged away into `none`) and the stored
context otherwise, never omitting history. -/
def rerun (action : Rerun) (workspace : Workspace) : Workspace × List TraceEvent :=
  match Inventory.last_scheduled_task workspace.project.inventory with
  | none => (workspace, [])
  | some (task, old_context) =>
    let resolvedPair : TaskContext × List TraceEvent :=
      if action.reevaluate_context then
        let cwd := Option.join (Except.toOption (task_cwd workspace.project))
        let fresh := task_context workspace cwd
        (fresh, [TraceEvent.resolved fresh])
      else (old_context, [])
    let result := schedule_task task resolvedPair.1 false workspace.project.inventory
    ({ workspace with project := { workspace.project with inventory := result.1 } },
     resolvedPair.2 ++ result.2)

/-- A directory root entry, used by the concrete examples. -/
def dirEntry : Entry := { is_dir := true }

/-- Concrete worktree rooted at /a containing entry 10. -/
def worktreeA : Worktree :=
  { id := 1, abs_path := "/a", is_visible := true, is_local := true,
    root_entry := some dirEntry, entries := [10] }

/-- Concrete worktree rooted at /b containing entry 20. -/
def worktreeB : Worktree :=
  { id := 2, abs_path := "/b", is_visible := true, is_local := true,
    root_entry := some dirEntry, entries := [20] }

/-- Concrete worktree rooted at /dir containing entry 10. -/
def worktreeDir : Worktree :=
  { id := 1, abs_path := "/dir", is_visible := true, is_local := true,
    root_entry := some dirEntry, entries := [10] }

/-- An inventory with empty history. -/
def invEmpty : Inventory := { lastScheduled := none }

/-- Project with two candidate roots and the active entry inside /b. -/
def projTwoActive : Project :=
  { worktrees := [worktreeA, worktreeB], active_entry := some 20, inventory := invEmpty }

/-- Project with two candidate roots and no active entry. -/
def projTwoNoActive : Project :=
  { worktrees := [worktreeA, worktreeB], active_entry := none, inventory := invEmpty }

/-- Project with no worktree at all. -/
def projZero : Project :=
  { worktrees := [], active_entry := some 10, inventory := invEmpty }

/-- Project with exactly one candidate root and an unrelated active entry. -/
def projOne : Project :=
  { worktrees := [worktreeA], active_entry := some 99, inventory := invEmpty }

/-- Project with the single /dir root, empty history. -/
def projDir : Project :=
  { worktrees := [worktreeDir], active_entry := none, inventory := invEmpty }

/-- A concrete execution descriptor. -/
def sampleDescr : SpawnInTerminal := { command := "echo", args := ["4"], cwd := none }

/-- A task whose prepare always fails to produce a descriptor. -/
def taskFailing : Task := { name := "never", prepare_exec := fun _ => none }

/-- A task whose prepare always succeeds with `sampleDescr`. -/
def taskEcho : Task := { name := "example task", prepare_exec := fun _ => some sampleDescr }

/-- An empty task context. -/
def ctxEmpty : TaskContext := { cwd := none, task_variables := [] }

/-- Contents of the typescript example buffer. -/
def tsText : List Char := String.toList "function this_is_a_test() ..."

/-- The local file backing the typescript buffer, in worktree 1. -/
def fileTs : SourceFile := { worktree_id := 1, local_abs_path := some "/dir/a.ts" }

/-- A buffer whose language declares no context provider. -/
def bufferPlain : Buffer := { text := tsText, file := some fileTs, language := none }

/-- An empty selection at the start of the buffer. -/
def selOrigin : Selection := { start := 0, stop := 0 }

/-- Editor on the plain buffer with the cursor at the origin. -/
def editorOrigin : Editor :=
  { buffer := bufferPlain, selection := selOrigin, point_to_buffer_offset_ok := true }

/-- Workspace with the origin editor active. -/
def wsOrigin : Workspace := { project := projDir, active_editor := some editorOrigin }

/-- Workspace with no active editor surface. -/
def wsNoEditor : Workspace := { project := projDir, active_editor := none }

/-- Editor whose selection start cannot be mapped to a buffer offset. -/
def editorUnmappable : Editor :=
  { buffer := bufferPlain, selection := selOrigin, point_to_buffer_offset_ok := false }

/-- Workspace with the unmappable editor active. -/
def wsUnmappable : Workspace := { project := projDir, active_editor := some editorUnmappable }

/-- A context provider that always fails. -/
def providerFailing : ContextProvider :=
  { build_context := fun _ => Except.error "provider failed" }

/-- Language with the failing provider. -/
def langFailing : Language := { context_provider := some providerFailing }

/-- Buffer whose language has the failing provider. -/
def bufferFailing : Buffer := { text := tsText, file := some fileTs, language := some langFailing }

/-- Editor on the buffer with the failing provider. -/
def editorFailing : Editor :=
  { buffer := bufferFailing, selection := selOrigin, point_to_buffer_offset_ok := true }

/-- Workspace with the failing-provider editor active. -/
def wsFailing : Workspace := { project := projDir, active_editor := some editorFailing }

/-- Contents of the rust example buffer. -/
def rustText : List Char := String.toList "use std; fn this_is_a_rust_file() ..."

/-- A provider extracting the enclosing symbol name. -/
def providerSymbol : ContextProvider :=
  { build_context := fun _ => Except.ok [(VariableName.Symbol, "this_is_a_rust_file")] }

/-- Language with the symbol provider. -/
def langRust : Language := { context_provider := some providerSymbol }

/-- The local file backing the rust buffer, in worktree 1. -/
def fileRs : SourceFile := { worktree_id := 1, local_abs_path := some "/dir/rust/b.rs" }

/-- Buffer whose language has the symbol provider. -/
def bufferRust : Buffer := { text := rustText, file := some fileRs, language := some langRust }

/-- A selection spanning characters 14 to 18 of the rust buffer. -/
def selRust : Selection := { start := 14, stop := 18 }

/-- Editor on the rust buffer with the identifier selection. -/
def editorRust : Editor :=
  { buffer := bufferRust, selection := selRust, point_to_buffer_offset_ok := true }

/-- Workspace with the rust editor active. -/
def wsRust : Workspace := { project := projDir, active_editor := some editorRust }

/-- A stored context recorded with an earlier schedule. -/
def oldCtxStored : TaskContext :=
  { cwd := some "/old", task_variables := [(VariableName.Row, "7")] }

/-- Inventory whose last-scheduled slot holds `taskEcho` with the stored
context. -/
def invStored : Inventory := { lastScheduled := some (taskEcho, oldCtxStored) }

/-- Project with the /dir root and the stored history. -/
def projStored : Project :=
  { worktrees := [worktreeDir], active_entry := none, inventory := invStored }

/-- Workspace with the stored history and the rust editor active. -/
def wsStored : Workspace := { project := projStored, active_editor := some editorRust }

/-- Workspace with empty history and the rust editor active. -/
def wsNoHistory : Workspace := { project := projDir, active_editor := some editorRust }

theorem findSome?_ifGuard_of_unique {α β : Type} (p : α → Bool) (f : α → β) (x : α) :
    ∀ l : List α, x ∈ l → p x = true → (∀ y ∈ l, p y = true → y = x) →
      List.findSome? (fun a => if p a then some (f a) else none) l = some (f x) := by
  intro l
  induction l with
  | nil => intro hx; cases hx
  | cons a tl ih =>
    intro hx hpx huniq
    by_cases hpa : p a = true
    · have hax : a = x := huniq a (List.mem_cons_self a tl) hpa
      subst hax
      simp [List.findSome?_cons, hpa]
    · have hpa' : p a = false := by
        cases hval : p a with
        | false => rfl
        | true => exact absurd hval hpa
      have hxtl : x ∈ tl := by
        cases hx with
        | head => exact absurd hpx hpa
        | tail _ h => exact h
      rw [List.findSome?_cons]
      simp only [hpa', if_false]
      exact ih hxtl hpx (fun y hy hpy => huniq y (List.mem_cons_of_mem a hy) hpy)

theorem findSome?_ifGuard_of_none {α β : Type} (p : α → Bool) (f : α → β) :
    ∀ l : List α, (∀ y ∈ l, p y = false) →
      List.findSome? (fun a => if p a then some (f a) else none) l = none := by
  intro l
  induction l with
  | nil => intro _; rfl
  | cons a tl ih =>
    intro h
    rw [List.findSome?_cons]
    simp only [h a (List.mem_cons_self a tl), if_false]
    exact ih (fun y hy => h y (List.mem_cons_of_mem a hy))

/-- C1: with more than one candidate root, `task_cwd` returns the path of
the candidate containing the active entry when the active entry belongs to
exactly one candidate; when the active entry is absent or belongs to no
candidate, it fails with the ambiguity error instead of returning any
default path. -/
theorem task_cwd_multiple_candidates (project : Project)
    (h2 : 2 ≤ (availableWorktrees project).length) :
    (∀ entry_id worktree, project.active_entry = some entry_id →
        worktree ∈ availableWorktrees project →
        Worktree.contains_entry worktree entry_id = true →
        (∀ other ∈ availableWorktrees project,
            Worktree.contains_entry other entry_id = true → other = worktree) →
        task_cwd project = Except.ok (some worktree.abs_path)) ∧
    ((project.active_entry = none ∨
        (∃ entry_id, project.active_entry = some entry_id ∧
          ∀ worktree ∈ availableWorktrees project,
            Worktree.contains_entry worktree entry_id = false)) →
      task_cwd project = Except.error "Cannot determine task cwd for multiple worktrees") := by
  rcases hav : availableWorktrees project with _ | ⟨a, _ | ⟨b, rest⟩⟩
  · rw [hav] at h2; simp at h2
  · rw [hav] at h2; simp at h2
  · constructor
    · intro entry_id worktree he hmem hcont huniq
      have hfind : List.findSome? (fun w =>
          if Worktree.contains_entry w entry_id then some w.abs_path else none)
          (a :: b :: rest) = some worktree.abs_path :=
        findSome?_ifGuard_of_unique _ _ worktree _ hmem hcont huniq
      simp [task_cwd, hav, he, hfind]
    · intro hcase
      rcases hcase with hnone | ⟨entry_id, he, hall⟩
      · simp [task_cwd, hav, hnone]
      · have hfind : List.findSome? (fun w =>
            if Worktree.contains_entry w entry_id then some w.abs_path else none)
            (a :: b :: rest) = none :=
          findSome?_ifGuard_of_none _ _ _ hall
        simp [task_cwd, hav, he, hfind]

theorem task_cwd_multiple_candidates_witness :
    task_cwd projTwoActive = Except.ok (some "/b") ∧
    task_cwd projTwoNoActive = Except.error "Cannot determine task cwd for multiple worktrees" :=
  ⟨(task_cwd_multiple_candidates projTwoActive (by decide)).1 20 worktreeB rfl (by decide)
      (by decide) (by decide),
   (task_cwd_multiple_candidates projTwoNoActive (by decide)).2 (Or.inl rfl)⟩

/-- C7: `task_cwd` filters candidates to visible, local, directory-rooted
worktrees; with zero candidates it returns success with no path, and with
exactly one candidate it returns that candidate's path, regardless of the
active entry (the statement holds for every project, in particular for any
active entry value). -/
theorem task_cwd_filtering_zero_one (project : Project) :
    (∀ w, w ∈ availableWorktrees project ↔
        (w ∈ project.worktrees ∧
          (w.is_visible && w.is_local && (w.root_entry.map Entry.is_dir).getD false) = true)) ∧
    (availableWorktrees project = [] → task_cwd project = Except.ok none) ∧
    (∀ worktree, availableWorktrees project = [worktree] →
        task_cwd project = Except.ok (some worktree.abs_path)) := by
  refine ⟨?_, ?_, ?_⟩
  · intro w
    simp [availableWorktrees, List.mem_filter]
  · intro h
    simp [task_cwd, h]
  · intro worktree h
    simp [task_cwd, h]

theorem task_cwd_filtering_zero_one_witness :
    task_cwd projZero = Except.ok none ∧
    task_cwd projOne = Except.ok (some "/a") :=
  ⟨(task_cwd_filtering_zero_one projZero).2.1 (by decide),
   (task_cwd_filtering_zero_one projOne).2.2 worktreeA (by decide)⟩

/-- C2: when prepare produces no execution descriptor, scheduling performs
no side effects: the inventory, and so the last-scheduled slot, keeps its
prior value, no spawn-request event is emitted and no history record
happens, so history is only ever updated on a successful prepare. -/
theorem schedule_task_failed_prepare_noop
    (task : Task) (task_cx : TaskContext) (omit_history : Bool) (inventory : Inventory)
    (h : task.prepare_exec task_cx = none) :
    (schedule_task task task_cx omit_history inventory).1 = inventory ∧
    List.filter TraceEvent.isSpawn (schedule_task task task_cx omit_history inventory).2 = [] ∧
    List.filter TraceEvent.isRecord (schedule_task task task_cx omit_history inventory).2 = [] := by
  simp [schedule_task, h, TraceEvent.isSpawn, TraceEvent.isRecord]

theorem schedule_task_failed_prepare_noop_witness :
    Task.prepare_exec taskFailing ctxEmpty = none ∧
    ((schedule_task taskFailing ctxEmpty false invStored).1 = invStored ∧
     List.filter TraceEvent.isSpawn (schedule_task taskFailing ctxEmpty false invStored).2 = [] ∧
     List.filter TraceEvent.isRecord (schedule_task taskFailing ctxEmpty false invStored).2 = []) :=
  ⟨rfl, schedule_task_failed_prepare_noop taskFailing ctxEmpty false invStored rfl⟩

/-- C3: on a successful prepare with history not omitted, the trace is
exactly prepare, then record, then spawn, so the (task, context) pair is
recorded into the last-scheduled slot strictly before the spawn-request
event; and on a successful prepare exactly one spawn-request event carrying
the execution descriptor is emitted, whether or not history is omitted. -/
theorem schedule_task_success_record_then_spawn
    (task : Task) (task_cx : TaskContext) (inventory : Inventory) (descr : SpawnInTerminal)
    (h : task.prepare_exec task_cx = some descr) :
    (schedule_task task task_cx false inventory).2 =
      [TraceEvent.prepared task.name task_cx,
       TraceEvent.recorded task.name task_cx,
       TraceEvent.spawned descr] ∧
    (schedule_task task task_cx false inventory).1.lastScheduled = some (task, task_cx) ∧
    List.filter TraceEvent.isSpawn (schedule_task task task_cx false inventory).2 =
      [TraceEvent.spawned descr] ∧
    List.filter TraceEvent.isSpawn (schedule_task task task_cx true inventory).2 =
      [TraceEvent.spawned descr] := by
  simp [schedule_task, h, Inventory.task_scheduled, TraceEvent.isSpawn]

theorem schedule_task_success_record_then_spawn_witness :
    Task.prepare_exec taskEcho ctxEmpty = some sampleDescr ∧
    ((schedule_task taskEcho ctxEmpty false invEmpty).2 =
      [TraceEvent.prepared taskEcho.name ctxEmpty,
       TraceEvent.recorded taskEcho.name ctxEmpty,
       TraceEvent.spawned sampleDescr] ∧
     (schedule_task taskEcho ctxEmpty false invEmpty).1.lastScheduled =
       some (taskEcho, ctxEmpty) ∧
     List.filter TraceEvent.isSpawn (schedule_task taskEcho ctxEmpty false invEmpty).2 =
       [TraceEvent.spawned sampleDescr] ∧
     List.filter TraceEvent.isSpawn (schedule_task taskEcho ctxEmpty true invEmpty).2 =
       [TraceEvent.spawned sampleDescr]) :=
  ⟨rfl, schedule_task_success_record_then_spawn taskEcho ctxEmpty invEmpty sampleDescr rfl⟩

/-- C4: with a stored last-scheduled pair, rerun without re-evaluation
schedules the same stored task with the byte-identical stored context and
history not omitted; rerun with re-evaluation first resolves a fresh
context (fresh working directory and fresh variables) and schedules the
same stored task with that fresh context, history not omitted. -/
theorem rerun_stored_pair (workspace : Workspace) (task : Task) (old_context : TaskContext)
    (h : workspace.project.inventory.lastScheduled = some (task, old_context)) :
    ((rerun { reevaluate_context := false } workspace).2 =
        (schedule_task task old_context false workspace.project.inventory).2 ∧
     (rerun { reevaluate_context := false } workspace).1.project.inventory =
        (schedule_task task old_context false workspace.project.inventory).1) ∧
    ((rerun { reevaluate_context := true } workspace).2 =
        TraceEvent.resolved (task_context workspace
            (Option.join (Except.toOption (task_cwd workspace.project)))) ::
          (schedule_task task
            (task_context workspace (Option.join (Except.toOption (task_cwd workspace.project))))
            false workspace.project.inventory).2 ∧
     (rerun { reevaluate_context := true } workspace).1.project.inventory =
        (schedule_task task
          (task_context workspace (Option.join (Except.toOption (task_cwd workspace.project))))
          false workspace.project.inventory).1) := by
  simp [rerun, Inventory.last_scheduled_task, h]

theorem rerun_stored_pair_witness :
    (rerun { reevaluate_context := false } wsStored).2 =
      (schedule_task taskEcho oldCtxStored false wsStored.project.inventory).2 ∧
    (rerun { reevaluate_context := true } wsStored).2 =
      TraceEvent.resolved (task_context wsStored
          (Option.join (Except.toOption (task_cwd wsStored.project)))) ::
        (schedule_task taskEcho
          (task_context wsStored (Option.join (Except.toOption (task_cwd wsStored.project))))
          false wsStored.project.inventory).2 :=
  ⟨(rerun_stored_pair wsStored taskEcho oldCtxStored rfl).1.1,
   (rerun_stored_pair wsStored taskEcho oldCtxStored rfl).2.1⟩

/-- C10: with an empty last-scheduled slot, the rerun action is a complete
no-op: the workspace, and so the history slot, is unchanged and the trace
is empty, so no context resolution, no prepare call, no history record and
no spawn-request event happen. -/
theorem rerun_empty_history_noop (workspace : Workspace) (action : Rerun)
    (h : workspace.project.inventory.lastScheduled = none) :
    rerun action workspace = (workspace, []) := by
  simp [rerun, Inventory.last_scheduled_task, h]

theorem rerun_empty_history_noop_witness :
    rerun { reevaluate_context := true } wsNoHistory = (wsNoHistory, []) :=
  rerun_empty_history_noop wsNoHistory { reevaluate_context := true } rfl

theorem taskVariables_get_insert (vars : TaskVariables) (k kq : VariableName) (v : String) :
    TaskVariables.get (TaskVariables.insert vars k v) kq =
      if kq = k then some v else TaskVariables.get vars kq := by
  induction vars with
  | nil =>
    by_cases h : kq = k
    · simp [TaskVariables.insert, TaskVariables.get, h]
    · simp [TaskVariables.insert, TaskVariables.get, h, Ne.symm h]
  | cons p rest ih =>
    by_cases hp : p.1 = k
    · by_cases h : kq = k
      · subst h
        simp [TaskVariables.insert, hp, ih]
      · have hkq : k ≠ kq := fun hh => h hh.symm
        simp [TaskVariables.insert, TaskVariables.get, hp, ih, h, hkq]
    · by_cases hq : p.1 = kq
      · have hqk : kq ≠ k := fun hh => hp (hq.trans hh)
        simp [TaskVariables.insert, TaskVariables.get, hp, hq, hqk]
      · simp [TaskVariables.insert, TaskVariables.get, hp, hq, ih]

theorem taskVariables_get_extend (other : TaskVariables) :
    ∀ (vars : TaskVariables) (k : VariableName),
      TaskVariables.get (TaskVariables.extend vars other) k =
        match TaskVariables.getLast other k with
        | some v => some v
        | none => TaskVariables.get vars k := by
  induction other with
  | nil =>
    intro vars k
    simp [TaskVariables.extend, TaskVariables.getLast]
  | cons p rest ih =>
    intro vars k
    have hstep : TaskVariables.extend vars (p :: rest) =
        TaskVariables.extend (TaskVariables.insert vars p.1 p.2) rest := rfl
    rw [hstep, ih]
    cases hg : TaskVariables.getLast rest k with
    | some v => simp [TaskVariables.getLast, hg]
    | none =>
      simp only [hg]
      rw [taskVariables_get_insert]
      by_cases h : k = p.1
      · subst h
        simp [TaskVariables.getLast, hg]
      · simp [TaskVariables.getLast, hg, h, Ne.symm h]

theorem baseVariables_get_known (workspace : Workspace) (editor : Editor) :
    TaskVariables.get (baseVariables workspace editor) VariableName.Row =
      some (toString ((offsetToPoint editor.buffer.text (Selection.range editor.selection).1).1 + 1)) ∧
    TaskVariables.get (baseVariables workspace editor) VariableName.Column =
      some (toString ((offsetToPoint editor.buffer.text (Selection.range editor.selection).1).2 + 1)) ∧
    TaskVariables.get (baseVariables workspace editor) VariableName.SelectedText =
      some (chars_for_range editor.buffer.text (Selection.range editor.selection)) := by
  cases hf : currentFile editor <;> cases hw : worktreePath workspace editor <;>
    simp [baseVariables, hf, hw, TaskVariables.from_iter, TaskVariables.insert,
      TaskVariables.get]

/-- C5: resolution never propagates an error: with no active editing
surface, or when the selection start cannot be mapped to a buffer offset,
it returns the given working directory with an empty variable environment
and never partial data; a failure of the language context provider alone
degrades only to the well-known variables with no extra ones. -/
theorem task_context_degrades (workspace : Workspace) (cwd : Option String) :
    (workspace.active_editor = none →
        task_context workspace cwd = { cwd := cwd, task_variables := [] }) ∧
    (∀ editor, workspace.active_editor = some editor →
        editor.point_to_buffer_offset_ok = false →
        task_context workspace cwd = { cwd := cwd, task_variables := [] }) ∧
    (∀ editor provider msg, workspace.active_editor = some editor →
        editor.point_to_buffer_offset_ok = true →
        editor.buffer.language.bind Language.context_provider = some provider →
        provider.build_context
          { bufferText := editor.buffer.text, range := Selection.range editor.selection } =
            Except.error msg →
        task_context workspace cwd =
          { cwd := cwd, task_variables := baseVariables workspace editor }) := by
  refine ⟨?_, ?_, ?_⟩
  · intro h
    simp [task_context, h]
  · intro editor h1 h2
    simp [task_context, h1, h2]
  · intro editor provider msg h1 h2 h3 h4
    have hlc : languageContext editor = none := by
      simp [languageContext, h3, h4, Except.toOption]
    simp [task_context, h1, h2, hlc]

theorem task_context_degrades_witness :
    task_context wsNoEditor none = { cwd := none, task_variables := [] } ∧
    task_context wsUnmappable (some "/dir") = { cwd := some "/dir", task_variables := [] } ∧
    task_context wsFailing none =
      { cwd := none, task_variables := baseVariables wsFailing editorFailing } :=
  ⟨(task_context_degrades wsNoEditor none).1 rfl,
   (task_context_degrades wsUnmappable (some "/dir")).2.1 editorUnmappable rfl rfl,
   (task_context_degrades wsFailing none).2.2 editorFailing providerFailing "provider failed"
     rfl rfl rfl rfl⟩

/-- C6: with an active editor whose language provider succeeds, the final
environment is the well-known variables extended by the provider variables:
a provider binding for any key, well-known keys included, wins
(last-write-wins) and is never dropped, while a key the provider does not
bind keeps its well-known value. -/
theorem task_context_provider_last_write_wins (workspace : Workspace) (editor : Editor)
    (cwd : Option String) (pv : TaskVariables)
    (h1 : workspace.active_editor = some editor)
    (h2 : editor.point_to_buffer_offset_ok = true)
    (h3 : languageContext editor = some pv) :
    (task_context workspace cwd).task_variables =
      TaskVariables.extend (baseVariables workspace editor) pv ∧
    (∀ k v, TaskVariables.getLast pv k = some v →
        TaskVariables.get (task_context workspace cwd).task_variables k = some v) ∧
    (∀ k, TaskVariables.getLast pv k = none →
        TaskVariables.get (task_context workspace cwd).task_variables k =
          TaskVariables.get (baseVariables workspace editor) k) := by
  have hv : (task_context workspace cwd).task_variables =
      TaskVariables.extend (baseVariables workspace editor) pv := by
    simp [task_context, h1, h2, h3]
  refine ⟨hv, ?_, ?_⟩
  · intro k v hk
    rw [hv, taskVariables_get_extend, hk]
  · intro k hk
    rw [hv, taskVariables_get_extend, hk]

theorem task_context_provider_last_write_wins_witness :
    languageContext editorRust = some [(VariableName.Symbol, "this_is_a_rust_file")] ∧
    TaskVariables.get (task_context wsRust none).task_variables VariableName.Symbol =
      some "this_is_a_rust_file" :=
  ⟨rfl,
   (task_context_provider_last_write_wins wsRust editorRust none
      [(VariableName.Symbol, "this_is_a_rust_file")] rfl rfl rfl).2.1
     VariableName.Symbol "this_is_a_rust_file" (by decide)⟩

/-- C8: with an active editor, and under the C6 override policy a provider
that does not bind Row or Column, the Row and Column variables are the
1-based row and column of the primary selection start: each is the raw
zero-based offset-derived coordinate plus one. -/
theorem task_context_row_column_one_based (workspace : Workspace) (editor : Editor)
    (cwd : Option String)
    (h1 : workspace.active_editor = some editor)
    (h2 : editor.point_to_buffer_offset_ok = true)
    (h3 : ∀ pv, languageContext editor = some pv →
        TaskVariables.getLast pv VariableName.Row = none ∧
        TaskVariables.getLast pv VariableName.Column = none) :
    TaskVariables.get (task_context workspace cwd).task_variables VariableName.Row =
      some (toString ((offsetToPoint editor.buffer.text (Selection.range editor.selection).1).1 + 1)) ∧
    TaskVariables.get (task_context workspace cwd).task_variables VariableName.Column =
      some (toString ((offsetToPoint editor.buffer.text (Selection.range editor.selection).1).2 + 1)) := by
  cases hlc : languageContext editor with
  | none =>
    have hv : (task_context workspace cwd).task_variables = baseVariables workspace editor := by
      simp [task_context, h1, h2, hlc]
    rw [hv]
    exact ⟨(baseVariables_get_known workspace editor).1,
      (baseVariables_get_known workspace editor).2.1⟩
  | some pv =>
    have hv : (task_context workspace cwd).task_variables =
        TaskVariables.extend (baseVariables workspace editor) pv := by
      simp [task_context, h1, h2, hlc]
    constructor
    · rw [hv, taskVariables_get_extend, (h3 pv hlc).1]
      exact (baseVariables_get_known workspace editor).1
    · rw [hv, taskVariables_get_extend, (h3 pv hlc).2]
      exact (baseVariables_get_known workspace editor).2.1

theorem task_context_row_column_one_based_witness :
    TaskVariables.get (task_context wsOrigin none).task_variables VariableName.Row =
      some "1" ∧
    TaskVariables.get (task_context wsOrigin none).task_variables VariableName.Column =
      some "1" := by
  have h := task_context_row_column_one_based wsOrigin editorOrigin none rfl rfl
    (fun pv hpv => by simp [languageContext, editorOrigin, bufferPlain] at hpv)
  exact ⟨h.1.trans (by decide), h.2.trans (by decide)⟩

/-- C9: with an active editor, and under the C6 override policy a provider
that does not bind SelectedText, the SelectedText variable is present and
is the literal substring of the buffer covered by the selection range; for
a zero-length selection it is present with exactly the empty string, not
absent. -/
theorem task_context_selected_text (workspace : Workspace) (editor : Editor)
    (cwd : Option String)
    (h1 : workspace.active_editor = some editor)
    (h2 : editor.point_to_buffer_offset_ok = true)
    (h3 : ∀ pv, languageContext editor = some pv →
        TaskVariables.getLast pv VariableName.SelectedText = none) :
    TaskVariables.get (task_context workspace cwd).task_variables VariableName.SelectedText =
      some (chars_for_range editor.buffer.text (Selection.range editor.selection)) ∧
    (editor.selection.start = editor.selection.stop →
      TaskVariables.get (task_context workspace cwd).task_variables VariableName.SelectedText =
        some "") := by
  have hsel :
      TaskVariables.get (task_context workspace cwd).task_variables VariableName.SelectedText =
        some (chars_for_range editor.buffer.text (Selection.range editor.selection)) := by
    cases hlc : languageContext editor with
    | none =>
      have hv : (task_context workspace cwd).task_variables = baseVariables workspace editor := by
        simp [task_context, h1, h2, hlc]
      rw [hv]
      exact (baseVariables_get_known workspace editor).2.2
    | some pv =>
      have hv : (task_context workspace cwd).task_variables =
          TaskVariables.extend (baseVariables workspace editor) pv := by
        simp [task_context, h1, h2, hlc]
      rw [hv, taskVariables_get_extend, h3 pv hlc]
      exact (baseVariables_get_known workspace editor).2.2
  refine ⟨hsel, fun heq => ?_⟩
  rw [hsel]
  simp [chars_for_range, Selection.range, heq]

theorem task_context_selected_text_witness :
    TaskVariables.get (task_context wsOrigin none).task_variables VariableName.SelectedText =
      some "" := by
  have h := task_context_selected_text wsOrigin editorOrigin none rfl rfl
    (fun pv hpv => by simp [languageContext, editorOrigin, bufferPlain] at hpv)
  exact h.2 rfl

end TasksUi
